import Mathlib

/-!
Shallow embedding of the belaUI control-plane server (src/belaUI.js).

Modelling conventions:
* JS numbers that the code only compares and stores are modelled as `Int`;
  JS `undefined` fields of message payloads and of the config object are
  modelled as `Option`.
* The global mutable state of the process (the `config` object, the
  `tempTokens` and `persistentTokens` maps, the `isStreaming` flag and the
  `netif` map) is gathered in `ServerState`; a websocket connection (`conn`,
  with its `isAuthed` and `authToken` expando properties) is a `Session`.
* Effects on the outside world (messages sent on the connection, broadcasts,
  process spawns and kills, the bitrate sentinel file write) are collected in
  a `List Out` in the order the code performs them.
* File reads of the pipeline directories (`fs.readdirSync`) can throw when
  the directory is absent; this is modelled by `Env.pipelineEntries = none`.
  The sha1-derived pipeline ids and the jetson/generic directory merge of
  `getPipelines` are abstracted into the environment-provided listing.
  Writes of `config.json` and `auth_tokens.json` are modelled as succeeding;
  the on-disk copies mirror the in-memory maps and are not represented
  separately.
* The two asynchronous steps are modelled faithfully to the event loop:
  `bcrypt.compare` in `tryAuth` only schedules a `PendingAuth`; its callback
  is the separate function `authCallback`, which runs after the current
  message handler has returned.  `dns.lookup` in `updateConfig` is modelled
  as completing immediately via `Env.dnsResolves` (adequate for the
  single-operation properties proved here).
* A JS exception propagating out of a handler is modelled by the `threw`
  flag of `StepRes`; state mutations and sends performed before the throw
  are kept, exactly as in JS.  The try/catch of the websocket `message`
  listener is `onMessage`, which discards the exception.
-/

/-- Streaming configuration, the mutable global `config` object.
Fields mirror the keys written by `updateConfig` and `setBitrate`. -/
structure Config where
  delay : Option Int := none
  pipeline : Option String := none
  min_br : Option Int := none
  max_br : Option Int := none
  srt_latency : Option Int := none
  srt_streamid : Option String := none
  srtla_addr : Option String := none
  srtla_port : Option Int := none
  deriving DecidableEq

/-- One row of the `netif` map: `{ip, txb, tp}` as built by `updateNetif`. -/
structure NetifEntry where
  ip : String
  txb : Int
  tp : Int
  deriving DecidableEq

/-- Global mutable server state: the config object, both token maps
(JS objects keyed by the token string, so a list of keys), the streaming
flag and the current interface-metrics map. -/
structure ServerState where
  config : Config := {}
  tempTokens : List String := []
  persistentTokens : List String := []
  isStreaming : Bool := false
  netif : List (String × NetifEntry) := []
  deriving DecidableEq

/-- Per-connection state: the `conn.isAuthed` and `conn.authToken`
expando properties set by `connAuth`, `tryAuth` and the logout handler. -/
structure Session where
  isAuthed : Bool := false
  authToken : Option String := none
  deriving DecidableEq

/-- One entry of the pipeline listing built by `read_dir_abs_path`:
a sha1-derived id, a display name and a resolved path. -/
structure PipelineEntry where
  id : String
  name : String
  path : String
  deriving DecidableEq

/-- Environment of a handler invocation: the pipeline directory contents
(`none` models `fs.readdirSync` throwing because the directory is absent)
and the DNS resolver consulted by `dns.lookup`. -/
structure Env where
  pipelineEntries : Option (List PipelineEntry) := some []
  dnsResolves : String → Bool := fun _ => true

/-- Payload of an `auth` command: `password`, `token` and
`persistent_token` fields, each possibly absent (`persistent_token`
is only read for truthiness, so it is a plain `Bool`). -/
structure AuthPayload where
  password : Option String := none
  token : Option String := none
  persistent : Bool := false
  deriving DecidableEq

/-- Payload of a `start` or `bitrate` command: the candidate config
fields read by `updateConfig` and `setBitrate`. -/
structure Params where
  delay : Option Int := none
  pipeline : Option String := none
  min_br : Option Int := none
  max_br : Option Int := none
  srt_latency : Option Int := none
  srt_streamid : Option String := none
  srtla_addr : Option String := none
  srtla_port : Option Int := none
  deriving DecidableEq

/-- Outbound frame payloads, one constructor per `buildMsg` type. -/
inductive Msg where
  | authMsg (success : Bool) (auth_token : Option String)
  | errorMsg (msg : String)
  | statusMsg (is_streaming : Bool)
  | configMsg (c : Config)
  | pipelinesMsg (l : List (String × String))
  | netifMsg (l : List (String × NetifEntry))
  | bitrateMsg (min_br max_br : Int)
  deriving DecidableEq

/-- Observable effects, in program order: a send on the handling
connection, a broadcast to all authenticated connections except the
originator, a broadcast to all authenticated connections, the bitrate
sentinel-file write, the SIGHUP to belacoder, a kill-by-name, a spawn of
the runner process, and a power command. -/
inductive Out where
  | send (m : Msg)
  | broadcastExcept (m : Msg)
  | broadcast (m : Msg)
  | writeBitrateFile (min_br max_br : Int)
  | hupBelacoder
  | terminate (pattern : String)
  | spawnRunner (pipeline : String) (delay : Option Int) (addr : Option String)
      (port : Option Int) (latency : Option Int) (streamid : Option String)
  | powerCommand (cmd : String)
  deriving DecidableEq

/-- A scheduled `bcrypt.compare` callback: the submitted password and the
requested persistence class.  `tryAuth` schedules it; `authCallback` runs
it after the current handler returns. -/
structure PendingAuth where
  password : String
  persistent : Bool
  deriving DecidableEq

/-- One key of an inbound frame, in insertion order; the payloads of the
commands `handleMessage` dispatches on. -/
inductive FrameEntry where
  | auth (a : AuthPayload)
  | start (p : Params)
  | stop
  | bitrate (p : Params)
  | command (cmd : String)
  | logout
  deriving DecidableEq

/-- Result of running a handler step: new global state, new session state,
effects in order, scheduled bcrypt callbacks, and whether a JS exception
propagated (effects and mutations before the throw are kept). -/
structure StepRes where
  state : ServerState
  sess : Session
  out : List Out := []
  pending : List PendingAuth := []
  threw : Bool := false
  deriving DecidableEq

/-- Embeds `searchPipelines`: resolve a pipeline id to its path, `.error`
when the directory scan throws. -/
def searchPipelines (env : Env) (id : String) : Except Unit (Option String) :=
  match env.pipelineEntries with
  | none => .error ()
  | some l => .ok (((l.find? (fun e => e.id = id))).map (fun e => e.path))

/-- Embeds `getPipelineList`: the id-to-name map sent to the frontend,
`.error` when the directory scan throws. -/
def getPipelineList (env : Env) : Except Unit (List (String × String)) :=
  match env.pipelineEntries with
  | none => .error ()
  | some l => .ok (l.map (fun e => (e.id, e.name)))

/-- Embeds `genAuthToken`: record the freshly generated random token in
the persistent or the temporary map (the random value is a parameter). -/
def genAuthToken (tok : String) (isPersistent : Bool) (st : ServerState) :
    ServerState :=
  if isPersistent then
    { st with persistentTokens := tok :: st.persistentTokens }
  else
    { st with tempTokens := tok :: st.tempTokens }

/-- Token validation as performed by `tryAuth`:
`tempTokens[msg.token] || persistentTokens[msg.token]`. -/
def validateToken (st : ServerState) (tok : String) : Bool :=
  st.tempTokens.contains tok || st.persistentTokens.contains tok

/-- Embeds the token-revocation block of the `logout` case: always delete
from `tempTokens`; delete from `persistentTokens` (and rewrite the file)
only when present there. -/
def revokeToken (tok : String) (st : ServerState) : ServerState :=
  let st1 := { st with tempTokens := st.tempTokens.filter (fun t => t ≠ tok) }
  if st1.persistentTokens.contains tok then
    { st1 with persistentTokens := st1.persistentTokens.filter (fun t => t ≠ tok) }
  else
    st1

/-- Embeds `sendInitialStatus`: config, pipeline list, streaming status
and netif map, as four separate sends.  `getPipelineList` can throw, in
which case only the config message was sent. -/
def sendInitialStatus (env : Env) (st : ServerState) : List Out × Bool :=
  match getPipelineList env with
  | .error _ => ([.send (.configMsg st.config)], true)
  | .ok l =>
      ([.send (.configMsg st.config), .send (.pipelinesMsg l),
        .send (.statusMsg st.isStreaming), .send (.netifMsg st.netif)], false)

/-- Embeds `connAuth`: mark the session authenticated, send the `auth`
success message (with the token only when one is passed), then the
initial-status burst. -/
def connAuth (env : Env) (st : ServerState) (se : Session)
    (sendToken : Option String) : Session × List Out × Bool :=
  let se1 := { se with isAuthed := true }
  let r := sendInitialStatus env st
  (se1, .send (.authMsg true sendToken) :: r.1, r.2)

/-- Embeds `tryAuth`: a string password schedules the asynchronous
`bcrypt.compare` (no state change in this handler turn); a string token is
checked against both token maps, on success `connAuth` runs and then the
token is recorded on the session, on failure an `auth success:false`
message is sent. -/
def tryAuth (env : Env) (st : ServerState) (se : Session)
    (a : AuthPayload) : StepRes :=
  match a.password with
  | some pw => { state := st, sess := se, pending := [⟨pw, a.persistent⟩] }
  | none =>
    match a.token with
    | some tok =>
        if validateToken st tok then
          let c := connAuth env st se none
          if c.2.2 then
            { state := st, sess := c.1, out := c.2.1, threw := true }
          else
            { state := st, sess := { c.1 with authToken := some tok },
              out := c.2.1 }
        else
          { state := st, sess := se, out := [.send (.authMsg false none)] }
    | none => { state := st, sess := se }

/-- Embeds the `bcrypt.compare` callback inside `tryAuth` (password
branch): on a match, generate and record a token, store it on the session,
and run `connAuth` with the token; otherwise send the Invalid password
error.  `tok` is the random token value; `matched` is the comparison
result. -/
def authCallback (env : Env) (tok : String) (matched : Bool)
    (isPersistent : Bool) (st : ServerState) (se : Session) : StepRes :=
  if matched then
    let st1 := genAuthToken tok isPersistent st
    let se1 := { se with authToken := some tok }
    let c := connAuth env st1 se1 (some tok)
    { state := st1, sess := c.1, out := c.2.1, threw := c.2.2 }
  else
    { state := st, sess := se, out := [.send (.errorMsg "Invalid password")] }

/-- Embeds `setBitrate`: validate presence, the [500, 12000] range for
both bounds and min ≤ max; on success commit `config.min_br`,
`config.max_br`, persist, write the sentinel file and signal belacoder.
Returns the accepted pair, or `none` for rejection (JS `null`). -/
def setBitrate (st : ServerState) (p : Params) :
    ServerState × List Out × Option (Int × Int) :=
  match p.min_br, p.max_br with
  | some m, some mx =>
      if m < 500 || m > 12000 then (st, [], none)
      else if mx < 500 || mx > 12000 then (st, [], none)
      else if m > mx then (st, [], none)
      else
        ({ st with config := { st.config with min_br := some m, max_br := some mx } },
         [.writeBitrateFile m mx, .hupBelacoder], some (m, mx))
  | _, _ => (st, [], none)

/-- Outputs of `startError`: the error message and a
`status is_streaming:false` message to the originating connection. -/
def startErrorOut (msg : String) : List Out :=
  [.send (.errorMsg msg), .send (.statusMsg false)]

/-- Result of `updateConfig`: new state, effects, the resolved pipeline
path handed to the callback when every check passed (`none` otherwise),
and the thrown-exception flag. -/
structure UCRes where
  state : ServerState
  out : List Out := []
  cbArg : Option String := none
  threw : Bool := false
  deriving DecidableEq

/-- Embeds `updateConfig`: validate delay, pipeline, bitrate (via
`setBitrate`, which commits the bitrate pair on its own), SRT latency,
SRT streamid, SRTLA address and port, then resolve the address; on
resolution success commit every field, persist, broadcast the config to
the other authenticated connections and invoke the callback with the
pipeline path. -/
def updateConfig (env : Env) (st : ServerState) (p : Params) : UCRes :=
  match p.delay with
  | none => { state := st, out := startErrorOut "audio delay not specified" }
  | some d =>
    if d < -2000 || d > 2000 then
      { state := st, out := startErrorOut ("invalid delay " ++ toString d) }
    else
      match p.pipeline with
      | none => { state := st, out := startErrorOut "pipeline not specified" }
      | some pid =>
        match searchPipelines env pid with
        | .error _ => { state := st, threw := true }
        | .ok none => { state := st, out := startErrorOut "pipeline not found" }
        | .ok (some pathv) =>
          let b := setBitrate st p
          match b.2.2 with
          | none =>
              { state := b.1,
                out := b.2.1 ++ startErrorOut "invalid bitrate range: " }
          | some _ =>
            match p.srt_latency with
            | none =>
                { state := b.1,
                  out := b.2.1 ++ startErrorOut "SRT latency not specified" }
            | some lat =>
              if lat < 100 || lat > 10000 then
                { state := b.1,
                  out := b.2.1 ++
                    startErrorOut ("invalid SRT latency " ++ toString lat ++ " ms") }
              else
                match p.srt_streamid with
                | none =>
                    { state := b.1,
                      out := b.2.1 ++ startErrorOut "SRT streamid not specified" }
                | some _ =>
                  match p.srtla_addr with
                  | none =>
                      { state := b.1,
                        out := b.2.1 ++ startErrorOut "SRTLA address not specified" }
                  | some addr =>
                    match p.srtla_port with
                    | none =>
                        { state := b.1,
                          out := b.2.1 ++ startErrorOut "SRTLA port not specified" }
                    | some port =>
                      if port ≤ 0 || port > 0xFFFF then
                        { state := b.1,
                          out := b.2.1 ++
                            startErrorOut ("invalid SRTLA port " ++ toString port) }
                      else if env.dnsResolves addr then
                        let c2 : Config :=
                          { delay := some d, pipeline := some pid,
                            min_br := p.min_br, max_br := p.max_br,
                            srt_latency := some lat,
                            srt_streamid := p.srt_streamid,
                            srtla_addr := some addr, srtla_port := some port }
                        { state := { b.1 with config := c2 },
                          out := b.2.1 ++ [.broadcastExcept (.configMsg c2)],
                          cbArg := some pathv }
                      else
                        { state := b.1,
                          out := b.2.1 ++
                            startErrorOut ("failed to resolve SRTLA addr " ++ addr) }

/-- Outcome stage of an `updateConfig` call: the first validation step that
fails, in the order the source checks them, or `committed` when every check
and the address resolution pass. -/
inductive UCStage where
  | badDelay
  | badPipeline
  | scanThrew
  | badBitrate
  | badLatency
  | badStreamid
  | badAddr
  | badPort
  | dnsFailed
  | committed
  deriving DecidableEq

/-- Classifies an `updateConfig` call by its first failing validation step,
mirroring the check order of the source: delay, pipeline (directory scan
throw or unknown id), bitrate via `setBitrate`, SRT latency, SRT streamid,
SRTLA address, SRTLA port, then DNS resolution. -/
def ucStage (env : Env) (st : ServerState) (p : Params) : UCStage :=
  match p.delay with
  | none => .badDelay
  | some d =>
    if d < -2000 || d > 2000 then .badDelay
    else
      match p.pipeline with
      | none => .badPipeline
      | some pid =>
        match searchPipelines env pid with
        | .error _ => .scanThrew
        | .ok none => .badPipeline
        | .ok (some _) =>
          match (setBitrate st p).2.2 with
          | none => .badBitrate
          | some _ =>
            match p.srt_latency with
            | none => .badLatency
            | some lat =>
              if lat < 100 || lat > 10000 then .badLatency
              else
                match p.srt_streamid with
                | none => .badStreamid
                | some _ =>
                  match p.srtla_addr with
                  | none => .badAddr
                  | some addr =>
                    match p.srtla_port with
                    | none => .badPort
                    | some port =>
                      if port ≤ 0 || port > 0xFFFF then .badPort
                      else if env.dnsResolves addr then .committed
                      else .dnsFailed

/-- Embeds `start`: run `updateConfig`; its callback spawns the runner
process with the resolved pipeline path and the committed config fields. -/
def startCmd (env : Env) (st : ServerState) (p : Params) :
    ServerState × List Out × Bool :=
  let r := updateConfig env st p
  match r.cbArg with
  | some pathv =>
      (r.state,
       r.out ++ [.spawnRunner pathv r.state.config.delay r.state.config.srtla_addr
         r.state.config.srtla_port r.state.config.srt_latency
         r.state.config.srt_streamid],
       r.threw)
  | none => (r.state, r.out, r.threw)

/-- Embeds `stop`: kill the runner and transport helper processes by
name; no state is touched. -/
def stopOut : List Out :=
  [.terminate "runner.rb", .terminate "srtla_send",
   .terminate "srtla_send_upstream", .terminate "belacoder"]

/-- Embeds `command`: only poweroff and reboot do anything. -/
def commandOut (cmd : String) : List Out :=
  if cmd = "poweroff" then [.powerCommand "poweroff"]
  else if cmd = "reboot" then [.powerCommand "reboot"]
  else []

/-- First dispatch loop of `handleMessage`: only the `auth` key is
handled. -/
def stepAuth (env : Env) (st : ServerState) (se : Session)
    (e : FrameEntry) : StepRes :=
  match e with
  | .auth a => tryAuth env st se a
  | _ => { state := st, sess := se }

/-- Second dispatch loop of `handleMessage`: start, stop, bitrate
(guarded by the streaming flag), command and logout. -/
def stepCmd (env : Env) (st : ServerState) (se : Session)
    (e : FrameEntry) : StepRes :=
  match e with
  | .start p =>
      let r := startCmd env st p
      { state := r.1, sess := se, out := r.2.1, threw := r.2.2 }
  | .stop => { state := st, sess := se, out := stopOut }
  | .bitrate p =>
      if st.isStreaming then
        let r := setBitrate st p
        match r.2.2 with
        | some br =>
            { state := r.1, sess := se,
              out := r.2.1 ++ [.broadcastExcept (.bitrateMsg br.1 br.2)] }
        | none => { state := r.1, sess := se, out := r.2.1 }
      else
        { state := st, sess := se }
  | .command c => { state := st, sess := se, out := commandOut c }
  | .logout =>
      let st1 := match se.authToken with
        | some tok => revokeToken tok st
        | none => st
      { state := st1, sess := { isAuthed := false, authToken := none } }
  | .auth _ => { state := st, sess := se }

/-- Runs one dispatch loop over the frame keys in order; a thrown
exception stops the loop and propagates, keeping the effects produced so
far. -/
def foldEntries (step : ServerState → Session → FrameEntry → StepRes) :
    ServerState → Session → List FrameEntry → StepRes
  | st, se, [] => { state := st, sess := se }
  | st, se, e :: rest =>
      let r := step st se e
      if r.threw then r
      else
        let r2 := foldEntries step r.state r.sess rest
        { state := r2.state, sess := r2.sess, out := r.out ++ r2.out,
          pending := r.pending ++ r2.pending, threw := r2.threw }

/-- Embeds `handleMessage`: dispatch `auth` keys first; then, only when
the connection is authenticated afterwards, dispatch the remaining command
keys in frame order. -/
def handleMessage (env : Env) (st : ServerState) (se : Session)
    (frame : List FrameEntry) : StepRes :=
  let r1 := foldEntries (stepAuth env) st se frame
  if r1.threw then r1
  else if !r1.sess.isAuthed then r1
  else
    let r2 := foldEntries (stepCmd env) r1.state r1.sess frame
    { state := r2.state, sess := r2.sess, out := r1.out ++ r2.out,
      pending := r1.pending ++ r2.pending, threw := r2.threw }

/-- Embeds the websocket `message` listener: `JSON.parse` failure
(`none`) or an exception from `handleMessage` is caught and logged; state
mutations and sends performed before the throw persist. -/
def onMessage (env : Env) (st : ServerState) (se : Session)
    (parsed : Option (List FrameEntry)) :
    ServerState × Session × List Out × List PendingAuth :=
  match parsed with
  | none => (st, se, [], [])
  | some frame =>
      let r := handleMessage env st se frame
      (r.state, r.sess, r.out, r.pending)

/-- Embeds `updateStatus`: the liveness poll observes whether the runner
process is alive and, on a change, rewrites the streaming flag and
broadcasts the new status. -/
def updateStatus (alive : Bool) (st : ServerState) : ServerState × List Out :=
  if alive ≠ st.isStreaming then
    ({ st with isStreaming := alive }, [.broadcast (.statusMsg alive)])
  else
    (st, [])

/-! Helper lemmas shared by the claim theorems. -/

/-- Frames containing an `auth` key, as tested by the first dispatch loop. -/
def hasAuthKey (f : List FrameEntry) : Bool :=
  f.any fun e => match e with
    | .auth _ => true
    | _ => false

theorem tryAuth_state (env : Env) (st : ServerState) (se : Session)
    (a : AuthPayload) : (tryAuth env st se a).state = st := by
  unfold tryAuth
  rcases a.password with _ | pw
  · rcases a.token with _ | tok
    · rfl
    · simp only
      split
      · split
        · rfl
        · rfl
      · rfl
  · rfl

theorem stepAuth_state (env : Env) (st : ServerState) (se : Session)
    (e : FrameEntry) : (stepAuth env st se e).state = st := by
  cases e <;> simp [stepAuth, tryAuth_state]

theorem setBitrate_isStreaming (st : ServerState) (p : Params) :
    (setBitrate st p).1.isStreaming = st.isStreaming := by
  unfold setBitrate
  split
  · (repeat' split) <;> rfl
  · rfl

theorem updateConfig_isStreaming (env : Env) (st : ServerState) (p : Params) :
    (updateConfig env st p).state.isStreaming = st.isStreaming := by
  unfold updateConfig
  repeat' split
  all_goals solve
    | rfl
    | simp [setBitrate_isStreaming]
    | (cases hb : (setBitrate st p).2.2 <;> simp [hb, setBitrate_isStreaming])

theorem startCmd_isStreaming (env : Env) (st : ServerState) (p : Params) :
    (startCmd env st p).1.isStreaming = st.isStreaming := by
  cases hc : (updateConfig env st p).cbArg <;>
    simp [startCmd, hc, updateConfig_isStreaming]

theorem revokeToken_isStreaming (tok : String) (st : ServerState) :
    (revokeToken tok st).isStreaming = st.isStreaming := by
  simp only [revokeToken]
  split
  · rfl
  · rfl

theorem stepCmd_isStreaming (env : Env) (st : ServerState) (se : Session)
    (e : FrameEntry) : (stepCmd env st se e).state.isStreaming = st.isStreaming := by
  cases e with
  | start p => simp [stepCmd, startCmd_isStreaming]
  | bitrate p =>
      simp only [stepCmd]
      split
      · split <;> simp [setBitrate_isStreaming]
      · rfl
  | logout =>
      simp only [stepCmd]
      rcases se.authToken with _ | tok <;> simp [revokeToken_isStreaming]
  | _ => rfl

theorem foldEntries_isStreaming
    (step : ServerState → Session → FrameEntry → StepRes)
    (hstep : ∀ st se e, (step st se e).state.isStreaming = st.isStreaming) :
    ∀ (f : List FrameEntry) (st : ServerState) (se : Session),
      (foldEntries step st se f).state.isStreaming = st.isStreaming := by
  intro f
  induction f with
  | nil => intro st se; rfl
  | cons e rest ih =>
      intro st se
      simp only [foldEntries]
      split
      · exact hstep st se e
      · simp [ih, hstep]

theorem handleMessage_isStreaming (env : Env) (st : ServerState)
    (se : Session) (f : List FrameEntry) :
    (handleMessage env st se f).state.isStreaming = st.isStreaming := by
  have h1 := foldEntries_isStreaming (stepAuth env)
    (fun st se e => by rw [stepAuth_state]) f st se
  have h2 := foldEntries_isStreaming (stepCmd env) (stepCmd_isStreaming env)
  simp only [handleMessage]
  split
  · exact h1
  · split
    · exact h1
    · simp only [h2, h1]

theorem foldEntries_noAuth (env : Env) :
    ∀ (f : List FrameEntry) (st : ServerState) (se : Session),
      hasAuthKey f = false →
      foldEntries (stepAuth env) st se f = { state := st, sess := se } := by
  intro f
  induction f with
  | nil => intro st se _; rfl
  | cons e rest ih =>
      intro st se h
      simp only [hasAuthKey, List.any_cons, Bool.or_eq_false_iff] at h
      have he : stepAuth env st se e = { state := st, sess := se } := by
        cases e <;> first
          | rfl
          | (exact absurd h.1 (by simp))
      simp only [foldEntries, he]
      simp [ih st se (by simpa [hasAuthKey] using h.2)]

theorem genAuthToken_isStreaming (tok : String) (isPersistent : Bool)
    (st : ServerState) :
    (genAuthToken tok isPersistent st).isStreaming = st.isStreaming := by
  cases isPersistent <;> simp [genAuthToken]

theorem filter_ne_contains_false (tok : String) (l : List String) :
    (l.filter (fun t => t ≠ tok)).contains tok = false := by
  simp [List.contains, List.mem_filter]

/-- C2: a token recorded by genAuthToken, under either persistence class,
validates (is present in one of the two token sets) immediately after
issuance, and no longer validates immediately after the logout handling of
handleMessage revokes it from whichever set contains it. -/
theorem token_valid_after_issue_invalid_after_revoke (env : Env)
    (tok : String) (isPersistent : Bool) (st st2 : ServerState) :
    validateToken (genAuthToken tok isPersistent st) tok = true ∧
    validateToken (handleMessage env st2
      { isAuthed := true, authToken := some tok } [.logout]).state tok = false := by
  constructor
  · cases isPersistent <;> simp [genAuthToken, validateToken]
  · have hm : (handleMessage env st2
        { isAuthed := true, authToken := some tok } [.logout]).state
        = revokeToken tok st2 := rfl
    rw [hm]
    simp only [revokeToken, validateToken]
    split
    · simp [filter_ne_contains_false]
    · rename_i hnp
      simp_all [filter_ne_contains_false]

/-- C4: the streaming flag is never modified by start (nor by any other
inbound-frame handling or by the password callback); the liveness poll
updateStatus is the sole writer of the flag and sets it to the observed
process liveness. -/
theorem streaming_flag_sole_authority :
    (∀ env st p, (startCmd env st p).1.isStreaming = st.isStreaming) ∧
    (∀ env st se f, (handleMessage env st se f).state.isStreaming = st.isStreaming) ∧
    (∀ env tok matched isPersistent st se,
      (authCallback env tok matched isPersistent st se).state.isStreaming
        = st.isStreaming) ∧
    (∀ alive st, (updateStatus alive st).1.isStreaming = alive) := by
  refine ⟨startCmd_isStreaming, handleMessage_isStreaming, ?_, ?_⟩
  · intro env tok matched isPersistent st se
    cases matched <;> simp [authCallback, genAuthToken_isStreaming]
  · intro alive st
    simp only [updateStatus]
    split
    · rfl
    · simp_all

/-- C5: on a connection that is not authenticated, a frame containing no
auth key produces no reply of any kind, schedules nothing and leaves the
whole server state and the session unchanged. -/
theorem unauth_nonauth_frame_is_noop (env : Env) (st : ServerState)
    (se : Session) (f : List FrameEntry) (h1 : se.isAuthed = false)
    (h2 : hasAuthKey f = false) :
    handleMessage env st se f = { state := st, sess := se } := by
  have hfold := foldEntries_noAuth env f st se h2
  simp [handleMessage, hfold, h1]

theorem unauth_nonauth_frame_is_noop_witness :
    ({} : Session).isAuthed = false ∧
    hasAuthKey [.start {}] = false ∧
    handleMessage {} {} {} [.start {}] = { state := {}, sess := {} } :=
  ⟨rfl, rfl, unauth_nonauth_frame_is_noop {} {} {} [.start {}] rfl rfl⟩

/-- C7: an authenticated session sending a bitrate command while the
streaming flag is false causes no broadcast, no reply, and no change to the
stored config or any other state: the bitrate update is not applied. -/
theorem bitrate_while_not_streaming_is_noop (env : Env) (st : ServerState)
    (se : Session) (p : Params) (h1 : se.isAuthed = true)
    (h2 : st.isStreaming = false) :
    handleMessage env st se [.bitrate p] = { state := st, sess := se } := by
  obtain ⟨a, tk⟩ := se
  simp only [Session.mk.injEq] at h1 ⊢
  subst h1
  simp [handleMessage, foldEntries, stepAuth, stepCmd, h2]

theorem bitrate_while_not_streaming_is_noop_witness :
    ({ isAuthed := true } : Session).isAuthed = true ∧
    ({} : ServerState).isStreaming = false ∧
    handleMessage {} {} { isAuthed := true }
        [.bitrate { min_br := some 1000, max_br := some 2000 }]
      = { state := {}, sess := { isAuthed := true } } :=
  ⟨rfl, rfl, bitrate_while_not_streaming_is_noop {} {} { isAuthed := true }
    { min_br := some 1000, max_br := some 2000 } rfl rfl⟩

/-- C8: setBitrate accepts a bitrate pair exactly when both bounds are
present, each lies within [500, 12000] and min is at most max; the boundary
pair (500, 12000) is accepted, while min 499, min 12001 and the inverted
pair (600, 500) are each rejected with the null result. -/
theorem setBitrate_acceptance :
    (∀ st p, ((setBitrate st p).2.2 ≠ none ↔
      ∃ m mx, p.min_br = some m ∧ p.max_br = some mx ∧
        500 ≤ m ∧ m ≤ 12000 ∧ 500 ≤ mx ∧ mx ≤ 12000 ∧ m ≤ mx)) ∧
    (∀ st, (setBitrate st { min_br := some 500, max_br := some 12000 }).2.2
      = some (500, 12000)) ∧
    (∀ st mx, (setBitrate st { min_br := some 499, max_br := mx }).2.2 = none) ∧
    (∀ st mx, (setBitrate st { min_br := some 12001, max_br := mx }).2.2 = none) ∧
    (∀ st, (setBitrate st { min_br := some 600, max_br := some 500 }).2.2
      = none) := by
  refine ⟨?_, ?_, ?_, ?_, ?_⟩
  · intro st p
    cases hm : p.min_br with
    | none => simp [setBitrate, hm]
    | some m =>
      cases hx : p.max_br with
      | none => simp [setBitrate, hm, hx]
      | some mx =>
        simp only [setBitrate, hm, hx]
        constructor
        · intro h
          refine ⟨m, mx, rfl, rfl, ?_⟩
          by_contra hc
          push_neg at hc
          split at h
          · exact h rfl
          · split at h
            · exact h rfl
            · split at h
              · exact h rfl
              · rename_i h1 h2 h3
                simp only [Bool.or_eq_true, decide_eq_true_eq, not_or] at h1 h2 h3
                push_neg at h1 h2 h3
                omega
        · rintro ⟨m2, mx2, hm2, hx2, hb1, hb2, hb3, hb4, hb5⟩
          obtain rfl : m = m2 := by simpa using hm2
          obtain rfl : mx = mx2 := by simpa using hx2
          have c1 : (decide (m < 500) || decide (m > 12000)) = false := by
            simp; omega
          have c2 : (decide (mx < 500) || decide (mx > 12000)) = false := by
            simp; omega
          have c3 : decide (m > mx) = false := by simp; omega
          simp [c1, c2, c3]
          rw [if_neg (by omega : ¬ mx < m)]
          simp
  · intro st; simp [setBitrate]
  · intro st mx; cases mx <;> simp [setBitrate]
  · intro st mx; cases mx <;> simp [setBitrate]
  · intro st; simp [setBitrate]

theorem genAuthToken_config (tok : String) (isPersistent : Bool)
    (st : ServerState) : (genAuthToken tok isPersistent st).config = st.config := by
  cases isPersistent <;> simp [genAuthToken]

theorem genAuthToken_netif (tok : String) (isPersistent : Bool)
    (st : ServerState) : (genAuthToken tok isPersistent st).netif = st.netif := by
  cases isPersistent <;> simp [genAuthToken]

/-- C6: on a successful password verification the connection receives the
auth message with success true carrying the newly issued token, followed by
exactly the four initial-sync messages as four independent sends, in the
order config snapshot, pipeline list, streaming state, interface metrics. -/
theorem password_auth_success_reply_sequence (env : Env)
    (l : List PipelineEntry) (tok : String) (isPersistent : Bool)
    (st : ServerState) (se : Session)
    (h : env.pipelineEntries = some l) :
    authCallback env tok true isPersistent st se =
      { state := genAuthToken tok isPersistent st,
        sess := { isAuthed := true, authToken := some tok },
        out := [.send (.authMsg true (some tok)),
                .send (.configMsg st.config),
                .send (.pipelinesMsg (l.map fun e => (e.id, e.name))),
                .send (.statusMsg st.isStreaming),
                .send (.netifMsg st.netif)] } := by
  obtain ⟨a, t⟩ := se
  simp [authCallback, connAuth, sendInitialStatus, getPipelineList, h,
    genAuthToken_config, genAuthToken_isStreaming, genAuthToken_netif]

theorem password_auth_success_reply_sequence_witness :
    ({} : Env).pipelineEntries = some [] ∧
    authCallback {} "tok" true false {} {} =
      { state := genAuthToken "tok" false {},
        sess := { isAuthed := true, authToken := some "tok" },
        out := [.send (.authMsg true (some "tok")),
                .send (.configMsg ({} : ServerState).config),
                .send (.pipelinesMsg (([] : List PipelineEntry).map fun e => (e.id, e.name))),
                .send (.statusMsg ({} : ServerState).isStreaming),
                .send (.netifMsg ({} : ServerState).netif)] } :=
  ⟨rfl, password_auth_success_reply_sequence {} [] "tok" false {} {} rfl⟩

/-- C9: the two authentication failure modes have different reply shapes:
an unknown token yields exactly one auth message with success false and no
error message, while a non-matching password yields exactly one error
message Invalid password and no auth message; in both cases the session
stays unauthenticated and the server state, in particular both token sets,
is unchanged. -/
theorem auth_failure_reply_shapes (env : Env) (st : ServerState)
    (se : Session) (t : String) (pt : Bool) (tok : String)
    (isPersistent : Bool)
    (h1 : st.tempTokens.contains t = false)
    (h2 : st.persistentTokens.contains t = false)
    (h3 : se.isAuthed = false) :
    handleMessage env st se [.auth { token := some t, persistent := pt }] =
      { state := st, sess := se, out := [.send (.authMsg false none)] } ∧
    authCallback env tok false isPersistent st se =
      { state := st, sess := se, out := [.send (.errorMsg "Invalid password")] } := by
  constructor
  · have hv : validateToken st t = false := by
      simp only [validateToken, Bool.or_eq_false_iff]
      exact ⟨h1, h2⟩
    simp [handleMessage, foldEntries, stepAuth, tryAuth, hv, h3]
  · simp [authCallback]

theorem auth_failure_reply_shapes_witness :
    ({} : ServerState).tempTokens.contains "t" = false ∧
    ({} : ServerState).persistentTokens.contains "t" = false ∧
    ({} : Session).isAuthed = false ∧
    (handleMessage {} {} {} [.auth { token := some "t", persistent := false }] =
      { state := {}, sess := {}, out := [.send (.authMsg false none)] } ∧
    authCallback {} "tok" false false {} {} =
      { state := {}, sess := {}, out := [.send (.errorMsg "Invalid password")] }) :=
  ⟨rfl, rfl, rfl, auth_failure_reply_shapes {} {} {} "t" false "tok" false rfl rfl rfl⟩

theorem setBitrate_cases (st : ServerState) (p : Params) :
    ((setBitrate st p).2.2 = none ∧ (setBitrate st p).1 = st) ∨
    (∃ br, (setBitrate st p).2.2 = some br ∧ (setBitrate st p).1 =
      { st with config :=
        { st.config with min_br := p.min_br, max_br := p.max_br } }) := by
  cases hm : p.min_br with
  | none => left; simp [setBitrate, hm]
  | some m =>
    cases hx : p.max_br with
    | none => left; simp [setBitrate, hm, hx]
    | some mx =>
      simp only [setBitrate, hm, hx]
      split
      · left; simp
      · split
        · left; simp
        · split
          · left; simp
          · right; exact ⟨(m, mx), rfl, rfl⟩

/-- C1 counterexample: a candidate config with a valid delay, a resolvable
pipeline and a valid bitrate pair but a missing SRT latency fails
validation (no callback runs and the SRT latency error is sent), yet the
stored config after the call differs from the stored config before it: the
bitrate fields were already committed by the setBitrate step. -/
theorem updateConfig_commit_on_failed_validation :
    (updateConfig
      { pipelineEntries := some [{ id := "pid", name := "generic/p", path := "/p" }] }
      { config := { min_br := some 800, max_br := some 900 } }
      { delay := some 0, pipeline := some "pid",
        min_br := some 1000, max_br := some 2000 }).cbArg = none ∧
    (updateConfig
      { pipelineEntries := some [{ id := "pid", name := "generic/p", path := "/p" }] }
      { config := { min_br := some 800, max_br := some 900 } }
      { delay := some 0, pipeline := some "pid",
        min_br := some 1000, max_br := some 2000 }).out =
      [.writeBitrateFile 1000 2000, .hupBelacoder,
       .send (.errorMsg "SRT latency not specified"), .send (.statusMsg false)] ∧
    (updateConfig
      { pipelineEntries := some [{ id := "pid", name := "generic/p", path := "/p" }] }
      { config := { min_br := some 800, max_br := some 900 } }
      { delay := some 0, pipeline := some "pid",
        min_br := some 1000, max_br := some 2000 }).state.config ≠
      ({ config := { min_br := some 800, max_br := some 900 } } : ServerState).config := by
  refine ⟨rfl, rfl, ?_⟩
  decide

/-- C1 amended: the stored config after an updateConfig call is determined
by the first failing validation stage (the ucStage classifier, which follows
the check order of the source): every failure at or before the bitrate step
(delay, pipeline, directory-scan exception, bitrate) leaves the stored
config unchanged; every failure after a successful bitrate step (SRT
latency, SRT streamid, SRTLA address, SRTLA port, DNS resolution) leaves
exactly the bitrate pair committed on top of the prior config; and only the
fully successful call commits all the candidate fields, which is also the
only case that runs the callback. -/
theorem updateConfig_commit_granularity (env : Env) (st : ServerState)
    (p : Params) :
    ((updateConfig env st p).cbArg ≠ none ↔ ucStage env st p = .committed) ∧
    (updateConfig env st p).state.config =
      (match ucStage env st p with
       | .badDelay | .badPipeline | .scanThrew | .badBitrate => st.config
       | .badLatency | .badStreamid | .badAddr | .badPort | .dnsFailed =>
           { st.config with min_br := p.min_br, max_br := p.max_br }
       | .committed =>
           { delay := p.delay, pipeline := p.pipeline, min_br := p.min_br,
             max_br := p.max_br, srt_latency := p.srt_latency,
             srt_streamid := p.srt_streamid, srtla_addr := p.srtla_addr,
             srtla_port := p.srtla_port }) := by
  simp only [updateConfig, ucStage]
  cases hd : p.delay with
  | none => exact ⟨by simp, rfl⟩
  | some d =>
    dsimp only
    cases hdr : (decide (d < -2000) || decide (d > 2000)) with
    | true => exact ⟨by simp, rfl⟩
    | false =>
      rw [if_neg Bool.false_ne_true, if_neg Bool.false_ne_true]
      cases hpl : p.pipeline with
      | none => exact ⟨by simp, rfl⟩
      | some pid =>
        dsimp only
        cases hsp : searchPipelines env pid with
        | error u => exact ⟨by simp, rfl⟩
        | ok o =>
          cases o with
          | none => exact ⟨by simp, rfl⟩
          | some pathv =>
            dsimp only
            rcases setBitrate_cases st p with ⟨hn, hs⟩ | ⟨br, hn, hs⟩
            · simp [hn, hs]
            · simp only [hn, hs]
              cases hl : p.srt_latency with
              | none => exact ⟨by simp, rfl⟩
              | some lat =>
                dsimp only
                cases hlr : (decide (lat < 100) || decide (lat > 10000)) with
                | true => exact ⟨by simp, rfl⟩
                | false =>
                  rw [if_neg Bool.false_ne_true, if_neg Bool.false_ne_true]
                  cases hsid : p.srt_streamid with
                  | none => exact ⟨by simp, rfl⟩
                  | some sid =>
                    dsimp only
                    cases haddr : p.srtla_addr with
                    | none => exact ⟨by simp, rfl⟩
                    | some addr =>
                      dsimp only
                      cases hport : p.srtla_port with
                      | none => exact ⟨by simp, rfl⟩
                      | some port =>
                        dsimp only
                        cases hpr : (decide (port ≤ 0) || decide (port > 65535)) with
                        | true => exact ⟨by simp, rfl⟩
                        | false =>
                          rw [if_neg Bool.false_ne_true, if_neg Bool.false_ne_true]
                          cases hdns : env.dnsResolves addr with
                          | false => exact ⟨by simp, rfl⟩
                          | true =>
                            refine ⟨by simp, ?_⟩
                            simp [hd, hpl, hl, hsid, haddr, hport]

/-- C3 counterexample: a frame from an unauthenticated connection carrying
a password credential together with a start command only schedules the
asynchronous password verification: the handler returns with no output, no
state change and the start command is never dispatched, even though the
password would verify (running the scheduled callback authenticates).  So
a command in the same frame as a password credential is not executed as an
authenticated command in the same frame handling. -/
theorem password_frame_drops_other_commands :
    handleMessage {} {} {}
        [.auth { password := some "pw" }, .start { delay := some 0 }] =
      { state := {}, sess := {},
        pending := [{ password := "pw", persistent := false }] } ∧
    (authCallback {} "tok" true false {} {}).sess.isAuthed = true := by
  exact ⟨rfl, rfl⟩

/-- C3 amended: the auth key is dispatched before the other command keys of
a frame.  A valid token credential takes effect synchronously, so the other
commands of the same frame run authenticated; a password credential is only
scheduled for asynchronous verification, so on a connection that is not yet
authenticated the other commands of a password-carrying frame are not
dispatched at all. -/
theorem auth_dispatch_order_by_credential (env : Env)
    (l : List PipelineEntry) (st : ServerState) (se : Session)
    (t pw : String) (pt pt2 : Bool) (tk : Option String) (p : Params)
    (hl : env.pipelineEntries = some l)
    (ht : validateToken st t = true)
    (ha : se.isAuthed = false) :
    handleMessage env st se [.auth { token := some t, persistent := pt }, .stop] =
      { state := st, sess := { isAuthed := true, authToken := some t },
        out := [.send (.authMsg true none), .send (.configMsg st.config),
                .send (.pipelinesMsg (l.map fun e => (e.id, e.name))),
                .send (.statusMsg st.isStreaming),
                .send (.netifMsg st.netif)] ++ stopOut } ∧
    handleMessage env st se
        [.auth { password := some pw, token := tk, persistent := pt2 }, .start p] =
      { state := st, sess := se,
        pending := [{ password := pw, persistent := pt2 }] } := by
  constructor
  · obtain ⟨a0, tk0⟩ := se
    simp [handleMessage, foldEntries, stepAuth, stepCmd, tryAuth, connAuth,
      sendInitialStatus, getPipelineList, hl, ht]
  · simp [handleMessage, foldEntries, stepAuth, tryAuth, ha]

theorem auth_dispatch_order_by_credential_witness :
    ({} : Env).pipelineEntries = some [] ∧
    validateToken { tempTokens := ["t"] } "t" = true ∧
    ({} : Session).isAuthed = false ∧
    (handleMessage {} { tempTokens := ["t"] } {}
        [.auth { token := some "t", persistent := false }, .stop] =
      { state := { tempTokens := ["t"] },
        sess := { isAuthed := true, authToken := some "t" },
        out := [.send (.authMsg true none),
                .send (.configMsg ({ tempTokens := ["t"] } : ServerState).config),
                .send (.pipelinesMsg (([] : List PipelineEntry).map fun e => (e.id, e.name))),
                .send (.statusMsg ({ tempTokens := ["t"] } : ServerState).isStreaming),
                .send (.netifMsg ({ tempTokens := ["t"] } : ServerState).netif)]
              ++ stopOut } ∧
    handleMessage {} { tempTokens := ["t"] } {}
        [.auth { password := some "pw", token := none, persistent := false }, .start {}] =
      { state := { tempTokens := ["t"] }, sess := {},
        pending := [{ password := "pw", persistent := false }] }) :=
  ⟨rfl, by decide, rfl,
    auth_dispatch_order_by_credential {} [] { tempTokens := ["t"] } {}
      "t" "pw" false false none {} rfl (by decide) rfl⟩

/-- C10 counterexample: a frame whose handling throws is caught, but it is
not silently discarded with no effect: here the bitrate key is dispatched
first (the sentinel file is written, belacoder is signalled, the change is
broadcast and the stored config is updated) and only then does the start
key throw in the pipeline directory scan; the caught result keeps all those
effects, contradicting that no reply is sent and no shared state changes. -/
theorem caught_throwing_frame_keeps_effects :
    (handleMessage { pipelineEntries := none }
        { config := { min_br := some 800, max_br := some 900 }, isStreaming := true }
        { isAuthed := true }
        [.bitrate { min_br := some 1000, max_br := some 2000 },
         .start { delay := some 0, pipeline := some "x" }]).threw = true ∧
    onMessage { pipelineEntries := none }
        { config := { min_br := some 800, max_br := some 900 }, isStreaming := true }
        { isAuthed := true }
        (some [.bitrate { min_br := some 1000, max_br := some 2000 },
               .start { delay := some 0, pipeline := some "x" }]) =
      ({ config := { min_br := some 1000, max_br := some 2000 }, isStreaming := true },
       { isAuthed := true },
       [.writeBitrateFile 1000 2000, .hupBelacoder,
        .broadcastExcept (.bitrateMsg 1000 2000)], []) := by
  exact ⟨rfl, rfl⟩

/-- C10 amended: a frame whose text is not valid JSON is silently discarded
with no reply and no change to any state; a frame whose handling throws
does not terminate the service and leaves the connection open, but the
state mutations made and the messages sent before the throw persist: the
catch merely discards the exception. -/
theorem onMessage_catch_semantics :
    (∀ env st se, onMessage env st se none = (st, se, [], [])) ∧
    (∀ env st se f,
      onMessage env st se (some f) =
        ((handleMessage env st se f).state, (handleMessage env st se f).sess,
         (handleMessage env st se f).out, (handleMessage env st se f).pending)) := by
  exact ⟨fun env st se => rfl, fun env st se f => rfl⟩
